import Mathlib

/-!
Shallow embedding of the quiz session manager in src/main.py.

The core is the session state machine and answer validator: the handlers
create_session, next_question, submit_answer and finish_session, acting on
a mutable per-session record, with a fixed immutable quiz catalog QUIZZES.
HTTP routing, bearer-token auth and the session-store dictionary lookup are
plumbing outside the embedded core; every handler below takes the session
record (the value the Python code mutates in place) and returns the updated
record together with the response or the raised error.  Timestamps
(time.time) are modelled as an explicit Nat argument supplied by the caller.
Python ints are modelled as Int where the code can see negative values
(submitted option indexes) and as Nat for counters.
-/

namespace Quiz

inductive Status where
  | active
  | finished
deriving DecidableEq, Repr, Inhabited

inductive Mode where
  | practice
  | test
deriving DecidableEq, Repr, Inhabited

/-- A question of the catalog: mirrors the dict shape in QUIZZES
(question_id, prompt, options, correct, explanation, multi_select). -/
structure Question where
  question_id : String
  prompt : String
  options : List String
  correct : List Int
  explanation : String
  multi_select : Bool
deriving DecidableEq, Repr, Inhabited

/-- An answer record as appended by submit_answer (main.py lines 271-276). -/
structure AnswerRecord where
  question_id : String
  selected : List Int
  correct : Bool
  answered_at : Nat
deriving DecidableEq, Repr, Inhabited

/-- A session record as created by create_session (main.py lines 158-169). -/
structure Session where
  session_id : String
  quiz_id : String
  mode : Mode
  status : Status
  current_index : Nat
  score : Nat
  served_order : List String
  answers : List AnswerRecord
  started_at : Nat
  updated_at : Nat
deriving DecidableEq, Repr, Inhabited

structure Progress where
  current : Nat
  total : Nat
deriving DecidableEq, Repr, Inhabited

/-- The question payload sent to clients (main.py lines 53-57): by
construction it carries only identifier, prompt, options and the
multi-select flag. -/
structure QuestionOut where
  question_id : String
  prompt : String
  options : List String
  multi_select : Bool
deriving DecidableEq, Repr, Inhabited

structure NextQuestionResponse where
  session_id : String
  question : Option QuestionOut
  progress : Progress
  status : Status
deriving DecidableEq, Repr, Inhabited

structure SubmitAnswerRequest where
  question_id : String
  selected : List Int
deriving DecidableEq, Repr, Inhabited

structure SubmitAnswerResponse where
  session_id : String
  question_id : String
  correct : Bool
  score : Nat
  explanation : String
  progress : Progress
  status : Status
  next_available : Bool
deriving DecidableEq, Repr, Inhabited

structure FinishResponse where
  session_id : String
  status : Status
  score : Nat
  total : Nat
deriving DecidableEq, Repr, Inhabited

/-- The distinct failure kinds raised by the handlers (HTTPException
details in main.py; names follow the spec's taxonomy). -/
inductive ApiError where
  | notFound (detail : String)
  | alreadyFinished
  | noActiveQuestion
  | questionMismatch (expected : String)
  | alreadyAnswered
  | emptySelection
  | indexOutOfRange
deriving DecidableEq, Repr, Inhabited

/-- The three questions of quiz "us_history_1" (main.py lines 107-132). -/
def usHistory1 : List Question :=
  [ { question_id := "q1"
    , prompt := "In what year was the U.S. Declaration of Independence adopted?"
    , options := ["1774", "1776", "1781", "1789"]
    , correct := [1]
    , explanation := "The Declaration of Independence was adopted on July 4, 1776."
    , multi_select := false }
  , { question_id := "q2"
    , prompt := "Which document begins with 'We the People'?"
    , options := ["The U.S. Constitution", "The Bill of Rights",
                  "The Articles of Confederation", "The Federalist Papers"]
    , correct := [0]
    , explanation := "The preamble to the U.S. Constitution begins with 'We the People'."
    , multi_select := false }
  , { question_id := "q3"
    , prompt := "Select all that were among the original 13 colonies."
    , options := ["Georgia", "Vermont", "Pennsylvania", "Alaska"]
    , correct := [0, 2]
    , explanation := "Georgia and Pennsylvania were original colonies; Vermont and Alaska were not."
    , multi_select := true } ]

/-- The immutable quiz catalog (main.py line 106). -/
def QUIZZES : List (String × List Question) := [("us_history_1", usHistory1)]

/-- get_quiz_questions (main.py lines 137-140): none models the 404. -/
def get_quiz_questions (quiz_id : String) : Option (List Question) :=
  (QUIZZES.find? (fun p => p.1 == quiz_id)).map Prod.snd

/-- Python sorted on an Int list: the unique non-decreasing reordering. -/
def pySorted (l : List Int) : List Int :=
  l.insertionSort (· ≤ ·)

/-- Python sorted(set(l)): the sorted list of the distinct elements. -/
def sortedSet (l : List Int) : List Int :=
  pySorted l.dedup

/-- create_session (main.py lines 153-175): none models the 404 on an
unknown quiz_id; otherwise the freshly initialized session record. -/
def create_session (session_id : String) (quiz_id : String) (mode : Mode)
    (t : Nat) : Option Session :=
  match get_quiz_questions quiz_id with
  | none => none
  | some questions =>
    some { session_id := session_id
         , quiz_id := quiz_id
         , mode := mode
         , status := .active
         , current_index := 0
         , score := 0
         , served_order := questions.map (·.question_id)
         , answers := []
         , started_at := t
         , updated_at := t }

/-- next_question (main.py lines 197-229): returns the session record as
left in the store together with the response or the raised error. -/
def next_question (s : Session) (t : Nat) :
    Session × Except ApiError NextQuestionResponse :=
  match get_quiz_questions s.quiz_id with
  | none => (s, .error (.notFound s.quiz_id))
  | some questions =>
    let total := questions.length
    if s.status = .finished ∨ total ≤ s.current_index then
      ({ s with status := .finished, updated_at := t },
       .ok { session_id := s.session_id
           , question := none
           , progress := { current := total, total := total }
           , status := .finished })
    else
      let q := questions.getD s.current_index default
      (s, .ok { session_id := s.session_id
              , question := some { question_id := q.question_id
                                 , prompt := q.prompt
                                 , options := q.options
                                 , multi_select := q.multi_select }
              , progress := { current := s.current_index + 1, total := total }
              , status := .active })

/-- submit_answer (main.py lines 232-296): returns the session record as
left in the store together with the response or the raised error.  The
order of the guards mirrors the source exactly. -/
def submit_answer (s : Session) (req : SubmitAnswerRequest) (t : Nat) :
    Session × Except ApiError SubmitAnswerResponse :=
  match get_quiz_questions s.quiz_id with
  | none => (s, .error (.notFound s.quiz_id))
  | some questions =>
    let total := questions.length
    if s.status = .finished then
      (s, .error .alreadyFinished)
    else if total ≤ s.current_index then
      ({ s with status := .finished }, .error .noActiveQuestion)
    else
      let current_q := questions.getD s.current_index default
      if req.question_id ≠ current_q.question_id then
        (s, .error (.questionMismatch current_q.question_id))
      else if s.answers.any (fun a => a.question_id == req.question_id) then
        (s, .error .alreadyAnswered)
      else if req.selected.isEmpty then
        (s, .error .emptySelection)
      else if req.selected.any
          (fun i => decide (i < 0 ∨ (current_q.options.length : Int) ≤ i)) then
        (s, .error .indexOutOfRange)
      else
        let selected_norm := sortedSet req.selected
        let correct_norm := pySorted current_q.correct
        let is_correct := selected_norm == correct_norm
        let score' := if is_correct then s.score + 1 else s.score
        let answers' := s.answers ++
          [{ question_id := req.question_id
           , selected := selected_norm
           , correct := is_correct
           , answered_at := t }]
        let idx' := s.current_index + 1
        let status' := if total ≤ idx' then Status.finished else s.status
        ({ s with score := score'
                , answers := answers'
                , current_index := idx'
                , status := status'
                , updated_at := t },
         .ok { session_id := s.session_id
             , question_id := req.question_id
             , correct := is_correct
             , score := score'
             , explanation := current_q.explanation
             , progress := { current := answers'.length, total := total }
             , status := status'
             , next_available := status' == .active })

/-- finish_session (main.py lines 299-312): unconditionally marks the
session finished and reports the score. -/
def finish_session (s : Session) (t : Nat) :
    Session × Except ApiError FinishResponse :=
  match get_quiz_questions s.quiz_id with
  | none => (s, .error (.notFound s.quiz_id))
  | some questions =>
    ({ s with status := .finished, updated_at := t },
     .ok { session_id := s.session_id
         , status := .finished
         , score := s.score
         , total := questions.length })


/-- An operation of the external interface acting on one session record
(the session-store key plumbing is outside the core). -/
inductive Op where
  | nextQ (t : Nat)
  | submitA (req : SubmitAnswerRequest) (t : Nat)
  | finishS (t : Nat)
deriving DecidableEq, Repr

def applyOp (s : Session) : Op → Session
  | .nextQ t => (next_question s t).1
  | .submitA req t => (submit_answer s req t).1
  | .finishS t => (finish_session s t).1

def applyOps (s : Session) (ops : List Op) : Session :=
  ops.foldl applyOp s

/-- The spec's data-model invariant on one session record. -/
def sessionInv (s : Session) : Prop :=
  s.answers.length = s.current_index ∧
  s.score = (s.answers.filter (fun a => a.correct)).length

instance (s : Session) : Decidable (sessionInv s) := by
  unfold sessionInv
  infer_instance

deriving instance DecidableEq for Except

def demoSession : Session :=
  (create_session "sess-1" "us_history_1" .practice 0).getD default

def demoAfterQ1Q2 : Session :=
  (submit_answer ((submit_answer demoSession ⟨"q1", [1]⟩ 1).1) ⟨"q2", [0]⟩ 2).1

def demoFinishedLast : Session :=
  (submit_answer demoAfterQ1Q2 ⟨"q3", [0, 2]⟩ 3).1

def demoFinished : Session :=
  (finish_session demoSession 1).1

def iterNext (s : Session) (ts : Nat → Nat) : Nat → Session
  | 0 => s
  | n + 1 => (next_question (iterNext s ts n) (ts n)).1

def stripQuestion (q : Question) : QuestionOut :=
  { question_id := q.question_id
  , prompt := q.prompt
  , options := q.options
  , multi_select := q.multi_select }

def reqC1 : SubmitAnswerRequest := { question_id := "q1", selected := [1, 1] }

def reqC3 : SubmitAnswerRequest := { question_id := "q2", selected := [0] }

def reqC4 : SubmitAnswerRequest := { question_id := "q1", selected := [0] }

def reqC8 : SubmitAnswerRequest := { question_id := "q1", selected := [7] }

def demoAfterQ1 : Session :=
  (submit_answer demoSession { question_id := "q1", selected := [1] } 1).1

def respQ1 : SubmitAnswerResponse :=
  { session_id := "sess-1"
  , question_id := "q1"
  , correct := true
  , score := 1
  , explanation := "The Declaration of Independence was adopted on July 4, 1776."
  , progress := { current := 1, total := 3 }
  , status := .active
  , next_available := true }

def exhaustedActive : Session := { demoSession with current_index := 3 }

def respNextQ1 : NextQuestionResponse :=
  { session_id := "sess-1"
  , question := some { question_id := "q1"
                     , prompt := "In what year was the U.S. Declaration of Independence adopted?"
                     , options := ["1774", "1776", "1781", "1789"]
                     , multi_select := false }
  , progress := { current := 1, total := 3 }
  , status := .active }

def qoC9 : QuestionOut :=
  { question_id := "q1"
  , prompt := "In what year was the U.S. Declaration of Independence adopted?"
  , options := ["1774", "1776", "1781", "1789"]
  , multi_select := false }

def opsC2 : List Op :=
  [Op.submitA { question_id := "q1", selected := [1] } 1, Op.nextQ 2,
   Op.submitA { question_id := "q2", selected := [3] } 3, Op.finishS 4]

theorem get_quiz_questions_eq {qid : String} {qs : List Question}
    (h : get_quiz_questions qid = some qs) : qs = usHistory1 := by
  simp only [get_quiz_questions, QUIZZES, List.find?] at h
  rcases h' : ("us_history_1" == qid) with _ | _ <;> rw [h'] at h <;> simp at h
  exact h.symm

theorem sortedSet_eq_pySorted_iff (sel c : List Int) (hc : c.Nodup) :
    sortedSet sel = pySorted c ↔ sel.toFinset = c.toFinset := by
  rw [List.toFinset_eq_iff_perm_dedup, hc.dedup]
  unfold sortedSet pySorted
  constructor
  · intro h
    have h1 : sel.dedup.Perm (List.insertionSort (· ≤ ·) sel.dedup) :=
      (List.perm_insertionSort _ _).symm
    rw [h] at h1
    exact h1.trans (List.perm_insertionSort _ _)
  · intro h
    exact List.eq_of_perm_of_sorted
      ((List.perm_insertionSort _ _).trans
        (h.trans (List.perm_insertionSort _ _).symm))
      (List.sorted_insertionSort _ _) (List.sorted_insertionSort _ _)


theorem submit_finished_eq (s : Session) (req : SubmitAnswerRequest) (t : Nat)
    (qs : List Question) (hq : get_quiz_questions s.quiz_id = some qs)
    (h1 : s.status = .finished) :
    submit_answer s req t = (s, .error .alreadyFinished) := by
  simp [submit_answer, hq, h1]

theorem submit_no_active_eq (s : Session) (req : SubmitAnswerRequest) (t : Nat)
    (qs : List Question) (hq : get_quiz_questions s.quiz_id = some qs)
    (h1 : s.status = .active) (h2 : qs.length ≤ s.current_index) :
    submit_answer s req t =
      ({ s with status := .finished }, .error .noActiveQuestion) := by
  have h1' : ¬ s.status = .finished := by simp [h1]
  simp [submit_answer, hq, h1', h2]

theorem submit_mismatch_eq (s : Session) (req : SubmitAnswerRequest) (t : Nat)
    (qs : List Question) (hq : get_quiz_questions s.quiz_id = some qs)
    (h1 : s.status = .active) (h2 : s.current_index < qs.length)
    (h3 : req.question_id ≠ (qs.getD s.current_index default).question_id) :
    submit_answer s req t =
      (s, .error (.questionMismatch (qs.getD s.current_index default).question_id)) := by
  have h1' : ¬ s.status = .finished := by simp [h1]
  simp [submit_answer, hq, h1', not_le.mpr h2, h3,
        -List.getD_eq_getElem?_getD]

theorem submit_answered_eq (s : Session) (req : SubmitAnswerRequest) (t : Nat)
    (qs : List Question) (hq : get_quiz_questions s.quiz_id = some qs)
    (h1 : s.status = .active) (h2 : s.current_index < qs.length)
    (h3 : req.question_id = (qs.getD s.current_index default).question_id)
    (h4 : ∃ a ∈ s.answers, a.question_id = req.question_id) :
    submit_answer s req t = (s, .error .alreadyAnswered) := by
  have h1' : ¬ s.status = .finished := by simp [h1]
  simp only [h3] at h4
  simp [submit_answer, hq, h1', not_le.mpr h2, h3, h4,
        -List.getD_eq_getElem?_getD]

theorem submit_empty_eq (s : Session) (req : SubmitAnswerRequest) (t : Nat)
    (qs : List Question) (hq : get_quiz_questions s.quiz_id = some qs)
    (h1 : s.status = .active) (h2 : s.current_index < qs.length)
    (h3 : req.question_id = (qs.getD s.current_index default).question_id)
    (h4 : ∀ a ∈ s.answers, a.question_id ≠ req.question_id)
    (h5 : req.selected = []) :
    submit_answer s req t = (s, .error .emptySelection) := by
  have h1' : ¬ s.status = .finished := by simp [h1]
  simp only [h3] at h4
  simp [submit_answer, hq, h1', not_le.mpr h2, h3, h4, h5,
        -List.getD_eq_getElem?_getD]
  exact h4

theorem submit_oor_eq (s : Session) (req : SubmitAnswerRequest) (t : Nat)
    (qs : List Question) (hq : get_quiz_questions s.quiz_id = some qs)
    (h1 : s.status = .active) (h2 : s.current_index < qs.length)
    (h3 : req.question_id = (qs.getD s.current_index default).question_id)
    (h4 : ∀ a ∈ s.answers, a.question_id ≠ req.question_id)
    (h5 : req.selected ≠ [])
    (h6 : ∃ i ∈ req.selected, i < 0 ∨
        ((qs.getD s.current_index default).options.length : Int) ≤ i) :
    submit_answer s req t = (s, .error .indexOutOfRange) := by
  have h1' : ¬ s.status = .finished := by simp [h1]
  simp only [h3] at h4
  simp [submit_answer, hq, h1', not_le.mpr h2, h3, h4, h5, h6,
        -List.getD_eq_getElem?_getD]
  exact h4

theorem submit_ok_eq (s : Session) (req : SubmitAnswerRequest) (t : Nat)
    (qs : List Question) (hq : get_quiz_questions s.quiz_id = some qs)
    (h1 : s.status = .active) (h2 : s.current_index < qs.length)
    (h3 : req.question_id = (qs.getD s.current_index default).question_id)
    (h4 : ∀ a ∈ s.answers, a.question_id ≠ req.question_id)
    (h5 : req.selected ≠ [])
    (h6 : ∀ i ∈ req.selected, 0 ≤ i ∧
        i < ((qs.getD s.current_index default).options.length : Int)) :
    submit_answer s req t =
      (let current_q := qs.getD s.current_index default
       let is_correct := sortedSet req.selected == pySorted current_q.correct
       let score' := if is_correct then s.score + 1 else s.score
       let answers' := s.answers ++
         [{ question_id := req.question_id
          , selected := sortedSet req.selected
          , correct := is_correct
          , answered_at := t }]
       let status' := if qs.length ≤ s.current_index + 1 then Status.finished
                      else s.status
       ({ s with score := score'
               , answers := answers'
               , current_index := s.current_index + 1
               , status := status'
               , updated_at := t },
        Except.ok { session_id := s.session_id
                  , question_id := req.question_id
                  , correct := is_correct
                  , score := score'
                  , explanation := current_q.explanation
                  , progress := { current := answers'.length, total := qs.length }
                  , status := status'
                  , next_available := status' == Status.active })) := by
  have h1' : ¬ s.status = .finished := by simp [h1]
  have h6' : ¬ ∃ i ∈ req.selected, i < 0 ∨
      ((qs.getD s.current_index default).options.length : Int) ≤ i := by
    push_neg
    intro i hi
    exact ⟨(h6 i hi).1, (h6 i hi).2⟩
  simp only [h3] at h4
  simp [submit_answer, hq, h1', not_le.mpr h2, h3, h4, h5, h6',
        -List.getD_eq_getElem?_getD]
  exact h4

/-- Claim C3: on an existing session, submit-answer checks exactly six
preconditions in a fixed order, each failing with its own distinct error kind
(AlreadyFinished, NoActiveQuestion, QuestionMismatch with the expected identifier,
AlreadyAnswered, EmptySelection, IndexOutOfRange); whenever an earlier check fails
no later check's error is reported, and the call succeeds exactly when all six
preconditions hold. -/
theorem submit_answer_guard_order (s : Session) (req : SubmitAnswerRequest)
    (t : Nat) (qs : List Question) (hq : get_quiz_questions s.quiz_id = some qs) :
    (((submit_answer s req t).2 = .error .alreadyFinished) ↔ s.status = .finished)
  ∧ (((submit_answer s req t).2 = .error .noActiveQuestion) ↔
       s.status = .active ∧ qs.length ≤ s.current_index)
  ∧ (∀ e, ((submit_answer s req t).2 = .error (.questionMismatch e)) ↔
       s.status = .active ∧ s.current_index < qs.length ∧
       req.question_id ≠ (qs.getD s.current_index default).question_id ∧
       e = (qs.getD s.current_index default).question_id)
  ∧ (((submit_answer s req t).2 = .error .alreadyAnswered) ↔
       s.status = .active ∧ s.current_index < qs.length ∧
       req.question_id = (qs.getD s.current_index default).question_id ∧
       (∃ a ∈ s.answers, a.question_id = req.question_id))
  ∧ (((submit_answer s req t).2 = .error .emptySelection) ↔
       s.status = .active ∧ s.current_index < qs.length ∧
       req.question_id = (qs.getD s.current_index default).question_id ∧
       ¬ (∃ a ∈ s.answers, a.question_id = req.question_id) ∧
       req.selected = [])
  ∧ (((submit_answer s req t).2 = .error .indexOutOfRange) ↔
       s.status = .active ∧ s.current_index < qs.length ∧
       req.question_id = (qs.getD s.current_index default).question_id ∧
       ¬ (∃ a ∈ s.answers, a.question_id = req.question_id) ∧
       req.selected ≠ [] ∧
       (∃ i ∈ req.selected, i < 0 ∨
         ((qs.getD s.current_index default).options.length : Int) ≤ i))
  ∧ ((∃ r, (submit_answer s req t).2 = Except.ok r) ↔
       s.status = .active ∧ s.current_index < qs.length ∧
       req.question_id = (qs.getD s.current_index default).question_id ∧
       ¬ (∃ a ∈ s.answers, a.question_id = req.question_id) ∧
       req.selected ≠ [] ∧
       (∀ i ∈ req.selected, 0 ≤ i ∧
         i < ((qs.getD s.current_index default).options.length : Int))) := by
  by_cases h1 : s.status = .finished
  · simp only [submit_finished_eq s req t qs hq h1]
    simp [h1]
  · have h1a : s.status = .active := by cases h : s.status <;> simp_all
    by_cases h2 : qs.length ≤ s.current_index
    · simp only [submit_no_active_eq s req t qs hq h1a h2]
      simp [h1a, h2, not_lt.mpr h2]
    · have h2a : s.current_index < qs.length := not_le.mp h2
      by_cases h3 : req.question_id = (qs.getD s.current_index default).question_id
      case neg =>
        simp only [submit_mismatch_eq s req t qs hq h1a h2a h3]
        simp [h1a, h2a, h3, -List.getD_eq_getElem?_getD]
        exact fun e => eq_comm
      case pos =>
        by_cases h4 : ∃ a ∈ s.answers, a.question_id = req.question_id
        · simp only [submit_answered_eq s req t qs hq h1a h2a h3 h4]
          simp [h1a, h2a, h3, h4, -List.getD_eq_getElem?_getD]
          simp only [h3] at h4
          obtain ⟨a, ha, hae⟩ := h4
          exact ⟨⟨a, ha, hae⟩, fun hall => absurd hae (hall a ha),
                 fun hall _ => absurd hae (hall a ha),
                 fun hall _ => absurd hae (hall a ha)⟩
        · have h4a : ∀ a ∈ s.answers, a.question_id ≠ req.question_id := by
            push_neg at h4
            exact h4
          by_cases h5 : req.selected = []
          · simp only [submit_empty_eq s req t qs hq h1a h2a h3 h4a h5]
            simp [h1a, h2a, h3, h4, h5, -List.getD_eq_getElem?_getD]
            simp only [h3] at h4a
            exact h4a
          · by_cases h6 : ∃ i ∈ req.selected, i < 0 ∨
                ((qs.getD s.current_index default).options.length : Int) ≤ i
            · simp only [submit_oor_eq s req t qs hq h1a h2a h3 h4a h5 h6]
              simp [h1a, h2a, h3, h4, h5, h6, -List.getD_eq_getElem?_getD]
              simp only [h3] at h4a
              refine ⟨h4a, fun _ => ?_⟩
              obtain ⟨i, hi, hor⟩ := h6
              refine ⟨i, hi, fun h0 => ?_⟩
              rcases hor with hlt | hle
              · exact absurd h0 (not_le.mpr hlt)
              · exact hle
            · have h6a : ∀ i ∈ req.selected, 0 ≤ i ∧
                  i < ((qs.getD s.current_index default).options.length : Int) := by
                push_neg at h6
                exact h6
              simp only [submit_ok_eq s req t qs hq h1a h2a h3 h4a h5 h6a]
              simp [h1a, h2a, h3, h4, h5, h6a, -List.getD_eq_getElem?_getD]
              simp only [h3] at h4a
              exact ⟨h4a, fun _ => h6a, h4a, h6a⟩

theorem getD_mem {α : Type} (l : List α) (n : Nat) (d : α) (h : n < l.length) :
    l.getD n d ∈ l := by
  rw [List.getD_eq_getElem?_getD, List.getElem?_eq_getElem h, Option.getD_some]
  exact List.getElem_mem h

theorem usHistory1_correct_nodup : ∀ q ∈ usHistory1, q.correct.Nodup := by
  decide

/-- Claim C1: for every session and every submit-answer call that passes all six
preconditions against the current question, the returned correctness is true iff
the set of unique submitted indexes equals the question's correct-answer set taken
as a set of unique indexes, regardless of order or duplication of the submitted
indexes. -/
theorem submit_correct_iff_selected_set_eq (s : Session) (req : SubmitAnswerRequest)
    (t : Nat) (qs : List Question) (hq : get_quiz_questions s.quiz_id = some qs)
    (h1 : s.status = .active) (h2 : s.current_index < qs.length)
    (h3 : req.question_id = (qs.getD s.current_index default).question_id)
    (h4 : ∀ a ∈ s.answers, a.question_id ≠ req.question_id)
    (h5 : req.selected ≠ [])
    (h6 : ∀ i ∈ req.selected, 0 ≤ i ∧
        i < ((qs.getD s.current_index default).options.length : Int)) :
    ∃ r, (submit_answer s req t).2 = Except.ok r ∧
      (r.correct = true ↔
        req.selected.toFinset = (qs.getD s.current_index default).correct.toFinset) := by
  have hnodup : (qs.getD s.current_index default).correct.Nodup := by
    have hqs := get_quiz_questions_eq hq
    subst hqs
    exact usHistory1_correct_nodup _ (getD_mem _ _ _ h2)
  rw [submit_ok_eq s req t qs hq h1 h2 h3 h4 h5 h6]
  refine ⟨_, rfl, ?_⟩
  show (sortedSet req.selected == pySorted (qs.getD s.current_index default).correct) = true ↔ _
  rw [beq_iff_eq]
  exact sortedSet_eq_pySorted_iff _ _ hnodup

theorem sessionInv_next (s : Session) (t : Nat) (h : sessionInv s) :
    sessionInv ((next_question s t).1) := by
  unfold sessionInv at h ⊢
  unfold next_question
  cases hq : get_quiz_questions s.quiz_id with
  | none => exact h
  | some qs =>
    simp only []
    split_ifs <;> simpa using h

theorem sessionInv_finish (s : Session) (t : Nat) (h : sessionInv s) :
    sessionInv ((finish_session s t).1) := by
  unfold sessionInv at h ⊢
  unfold finish_session
  cases hq : get_quiz_questions s.quiz_id with
  | none => exact h
  | some qs => simpa using h

theorem sessionInv_submit (s : Session) (req : SubmitAnswerRequest) (t : Nat)
    (h : sessionInv s) : sessionInv ((submit_answer s req t).1) := by
  unfold sessionInv at h ⊢
  unfold submit_answer
  cases hq : get_quiz_questions s.quiz_id with
  | none => exact h
  | some qs =>
    simp only []
    split_ifs <;>
      simp_all [List.filter_append, List.length_append, Nat.add_comm]

theorem sessionInv_applyOp (s : Session) (op : Op) (h : sessionInv s) :
    sessionInv (applyOp s op) := by
  cases op with
  | nextQ t => exact sessionInv_next s t h
  | submitA req t => exact sessionInv_submit s req t h
  | finishS t => exact sessionInv_finish s t h

theorem sessionInv_applyOps (s : Session) (ops : List Op) (h : sessionInv s) :
    sessionInv (applyOps s ops) := by
  induction ops generalizing s with
  | nil => exact h
  | cons op ops ih =>
    exact ih _ (sessionInv_applyOp s op h)

theorem create_session_inv (sid qid : String) (mode : Mode) (t : Nat)
    (s0 : Session) (h : create_session sid qid mode t = some s0) :
    sessionInv s0 := by
  unfold create_session at h
  cases hq : get_quiz_questions qid with
  | none => rw [hq] at h; cases h
  | some qs =>
    rw [hq] at h
    cases h
    constructor <;> rfl

/-- Claim C2: for every session obtained from create-session by any sequence of
next-question, submit-answer and finish-session operations, the number of answer
records equals current_index, and score equals the number of answer records whose
correctness flag is true. -/
theorem answers_length_and_score_invariant (sid qid : String) (mode : Mode)
    (t : Nat) (s0 : Session) (h : create_session sid qid mode t = some s0)
    (ops : List Op) :
    (applyOps s0 ops).answers.length = (applyOps s0 ops).current_index ∧
    (applyOps s0 ops).score =
      ((applyOps s0 ops).answers.filter (fun a => a.correct)).length :=
  sessionInv_applyOps s0 ops (create_session_inv sid qid mode t s0 h)

theorem submit_notFound_eq (s : Session) (req : SubmitAnswerRequest) (t : Nat)
    (h : get_quiz_questions s.quiz_id = none) :
    submit_answer s req t = (s, .error (.notFound s.quiz_id)) := by
  simp [submit_answer, h]

theorem next_finished_eq (s : Session) (t : Nat) (qs : List Question)
    (hq : get_quiz_questions s.quiz_id = some qs)
    (h : s.status = .finished ∨ qs.length ≤ s.current_index) :
    next_question s t =
      ({ s with status := .finished, updated_at := t },
       Except.ok { session_id := s.session_id
                 , question := none
                 , progress := { current := qs.length, total := qs.length }
                 , status := .finished }) := by
  simp only [next_question, hq]
  rw [if_pos h]

theorem next_active_eq (s : Session) (t : Nat) (qs : List Question)
    (hq : get_quiz_questions s.quiz_id = some qs)
    (h1 : s.status = .active) (h2 : s.current_index < qs.length) :
    next_question s t =
      (s, Except.ok
        { session_id := s.session_id
        , question := some
            { question_id := (qs.getD s.current_index default).question_id
            , prompt := (qs.getD s.current_index default).prompt
            , options := (qs.getD s.current_index default).options
            , multi_select := (qs.getD s.current_index default).multi_select }
        , progress := { current := s.current_index + 1, total := qs.length }
        , status := .active }) := by
  simp only [next_question, hq]
  rw [if_neg]
  push_neg
  exact ⟨by simp [h1], h2⟩

theorem submit_ok_inversion (s : Session) (req : SubmitAnswerRequest) (t : Nat)
    (s1 : Session) (r : SubmitAnswerResponse)
    (h : submit_answer s req t = (s1, Except.ok r)) :
    ∃ qs, get_quiz_questions s.quiz_id = some qs ∧
      s.status = .active ∧ s.current_index < qs.length ∧
      req.question_id = (qs.getD s.current_index default).question_id ∧
      (∀ a ∈ s.answers, a.question_id ≠ req.question_id) ∧
      s1 = { s with
        score := if sortedSet req.selected ==
            pySorted (qs.getD s.current_index default).correct
          then s.score + 1 else s.score
        , answers := s.answers ++
            [{ question_id := req.question_id
             , selected := sortedSet req.selected
             , correct := sortedSet req.selected ==
                 pySorted (qs.getD s.current_index default).correct
             , answered_at := t }]
        , current_index := s.current_index + 1
        , status := if qs.length ≤ s.current_index + 1 then Status.finished
                    else s.status
        , updated_at := t } := by
  cases hqq : get_quiz_questions s.quiz_id with
  | none =>
    rw [submit_notFound_eq s req t hqq] at h
    simp at h
  | some qs =>
    by_cases h1 : s.status = .finished
    · rw [submit_finished_eq s req t qs hqq h1] at h
      simp at h
    · have h1a : s.status = .active := by cases hst : s.status <;> simp_all
      by_cases h2 : qs.length ≤ s.current_index
      · rw [submit_no_active_eq s req t qs hqq h1a h2] at h
        simp at h
      · have h2a : s.current_index < qs.length := not_le.mp h2
        by_cases h3 : req.question_id = (qs.getD s.current_index default).question_id
        case neg =>
          rw [submit_mismatch_eq s req t qs hqq h1a h2a h3] at h
          simp at h
        case pos =>
          by_cases h4 : ∃ a ∈ s.answers, a.question_id = req.question_id
          · rw [submit_answered_eq s req t qs hqq h1a h2a h3 h4] at h
            simp at h
          · have h4a : ∀ a ∈ s.answers, a.question_id ≠ req.question_id := by
              push_neg at h4
              exact h4
            by_cases h5 : req.selected = []
            · rw [submit_empty_eq s req t qs hqq h1a h2a h3 h4a h5] at h
              simp at h
            · by_cases h6 : ∃ i ∈ req.selected, i < 0 ∨
                  ((qs.getD s.current_index default).options.length : Int) ≤ i
              · rw [submit_oor_eq s req t qs hqq h1a h2a h3 h4a h5 h6] at h
                simp at h
              · have h6a : ∀ i ∈ req.selected, 0 ≤ i ∧
                    i < ((qs.getD s.current_index default).options.length : Int) := by
                  push_neg at h6
                  exact h6
                rw [submit_ok_eq s req t qs hqq h1a h2a h3 h4a h5 h6a] at h
                refine ⟨qs, rfl, h1a, h2a, h3, h4a, ?_⟩
                simp only [Prod.mk.injEq] at h
                exact h.1.symm

/-- Claim C4 (amended): after a successful submit-answer for some question_id,
submitting the same question_id again immediately fails — with AlreadyFinished when
the successful submission finished the session, and otherwise with QuestionMismatch
or AlreadyAnswered — and the session's score is never incremented twice for the
same question_id. -/
theorem resubmit_same_question_never_double_scores (s : Session)
    (req req2 : SubmitAnswerRequest) (t t2 : Nat) (s1 : Session)
    (r : SubmitAnswerResponse) (h : submit_answer s req t = (s1, Except.ok r))
    (hqid : req2.question_id = req.question_id) :
    (s1.status = .finished →
      submit_answer s1 req2 t2 = (s1, .error .alreadyFinished)) ∧
    (s1.status = .active →
      (∃ e, (submit_answer s1 req2 t2).2 = .error (.questionMismatch e)) ∨
      (submit_answer s1 req2 t2).2 = .error .alreadyAnswered) ∧
    (submit_answer s1 req2 t2).1.score = s1.score := by
  obtain ⟨qs, hqq, h1a, h2a, h3, h4a, hs1⟩ := submit_ok_inversion s req t s1 r h
  have hqq1 : get_quiz_questions s1.quiz_id = some qs := by
    rw [hs1]
    exact hqq
  by_cases hfin : s1.status = .finished
  · have heq := submit_finished_eq s1 req2 t2 qs hqq1 hfin
    refine ⟨fun _ => heq, fun hact => ?_, by rw [heq]⟩
    rw [hact] at hfin
    simp at hfin
  · have hst : s1.status = .active := by
      cases hx : s1.status <;> simp_all
    have hcond : ¬ qs.length ≤ s.current_index + 1 := by
      intro hle
      rw [hs1] at hst
      simp [hle] at hst
    have hlt : s1.current_index < qs.length := by
      rw [hs1]
      exact not_le.mp hcond
    have hmem : ∃ a ∈ s1.answers, a.question_id = req2.question_id := by
      rw [hs1, hqid]
      exact ⟨_, List.mem_append_right _ (List.mem_singleton_self _), rfl⟩
    by_cases hm : req2.question_id = (qs.getD s1.current_index default).question_id
    · have heq := submit_answered_eq s1 req2 t2 qs hqq1 hst hlt hm hmem
      refine ⟨fun hc => ?_, fun _ => Or.inr (by rw [heq]), by rw [heq]⟩
      rw [hc] at hst
      simp at hst
    · have heq := submit_mismatch_eq s1 req2 t2 qs hqq1 hst hlt hm
      refine ⟨fun hc => ?_, fun _ => Or.inl ⟨_, by rw [heq]⟩, by rw [heq]⟩
      rw [hc] at hst
      simp at hst

/-- Claim C4 counterexample: after successfully answering the last question q3
(which finishes the session), resubmitting q3 fails with AlreadyFinished, not with
QuestionMismatch or AlreadyAnswered as the claim states. -/
theorem resubmit_after_last_question_already_finished :
    (submit_answer demoAfterQ1Q2 ⟨"q3", [0, 2]⟩ 3).2 =
      Except.ok { session_id := "sess-1"
                , question_id := "q3"
                , correct := true
                , score := 3
                , explanation := "Georgia and Pennsylvania were original colonies; Vermont and Alaska were not."
                , progress := { current := 3, total := 3 }
                , status := .finished
                , next_available := false } ∧
    (submit_answer demoFinishedLast ⟨"q3", [0, 2]⟩ 4).2 = .error .alreadyFinished ∧
    (∀ e, (submit_answer demoFinishedLast ⟨"q3", [0, 2]⟩ 4).2 ≠
      .error (.questionMismatch e)) ∧
    (submit_answer demoFinishedLast ⟨"q3", [0, 2]⟩ 4).2 ≠ .error .alreadyAnswered := by
  have hv : (submit_answer demoFinishedLast ⟨"q3", [0, 2]⟩ 4).2 =
      .error .alreadyFinished := by decide
  refine ⟨by decide, hv, fun e hcontra => ?_, by simp [hv]⟩
  rw [hv] at hcontra
  simp at hcontra

/-- Claim C5 counterexample: an explicit finish-session call on a session whose
status is already finished succeeds (returning the score and re-stamping
updated_at) instead of failing, contradicting the claim that every subsequent
mutating request fails with InvalidState. -/
theorem finish_on_finished_session_succeeds :
    demoFinished.status = .finished ∧
    finish_session demoFinished 2 =
      ({ demoFinished with updated_at := 2 },
       Except.ok { session_id := "sess-1"
                 , status := .finished
                 , score := 0
                 , total := 3 }) := by
  decide

/-- Claim C5 (amended): the finished status is terminal in the following sense:
once a session's status is finished, submit-answer fails with AlreadyFinished and
causes no state change, and explicit finish-session succeeds idempotently, leaving
status finished and re-stamping only updated_at; no request transitions the session
out of finished. -/
theorem finished_is_terminal_amended (s : Session) (t : Nat) (qs : List Question)
    (hq : get_quiz_questions s.quiz_id = some qs) (hfin : s.status = .finished) :
    (∀ req t2, submit_answer s req t2 = (s, .error .alreadyFinished)) ∧
    (finish_session s t).1 = { s with updated_at := t } ∧
    (finish_session s t).2 = Except.ok
      { session_id := s.session_id
      , status := .finished
      , score := s.score
      , total := qs.length } := by
  refine ⟨fun req t2 => submit_finished_eq s req t2 qs hq hfin, ?_, ?_⟩
  · simp only [finish_session, hq]
    cases s
    simp_all
  · simp only [finish_session, hq]

/-- Claim C7: submit-answer on an active session whose cursor equals the total
number of questions fails with NoActiveQuestion and sets the session's status to
finished. -/
theorem submit_at_exhausted_cursor (s : Session) (req : SubmitAnswerRequest)
    (t : Nat) (qs : List Question) (hq : get_quiz_questions s.quiz_id = some qs)
    (h1 : s.status = .active) (h2 : s.current_index = qs.length) :
    (submit_answer s req t).2 = .error .noActiveQuestion ∧
    (submit_answer s req t).1.status = .finished := by
  rw [submit_no_active_eq s req t qs hq h1 (le_of_eq h2.symm)]
  exact ⟨rfl, rfl⟩

/-- Claim C8: when submit-answer fails with IndexOutOfRange, the session record —
status, current_index, score, answers, started_at and updated_at — is unchanged by
the call. -/
theorem index_out_of_range_preserves_state (s : Session)
    (req : SubmitAnswerRequest) (t : Nat)
    (h : (submit_answer s req t).2 = .error .indexOutOfRange) :
    (submit_answer s req t).1 = s := by
  cases hqq : get_quiz_questions s.quiz_id with
  | none =>
    rw [submit_notFound_eq s req t hqq]
  | some qs =>
    by_cases h1 : s.status = .finished
    · rw [submit_finished_eq s req t qs hqq h1]
    · have h1a : s.status = .active := by cases hx : s.status <;> simp_all
      by_cases h2 : qs.length ≤ s.current_index
      · rw [submit_no_active_eq s req t qs hqq h1a h2] at h
        simp at h
      · have h2a := not_le.mp h2
        by_cases h3 : req.question_id = (qs.getD s.current_index default).question_id
        case neg => rw [submit_mismatch_eq s req t qs hqq h1a h2a h3]
        case pos =>
          by_cases h4 : ∃ a ∈ s.answers, a.question_id = req.question_id
          · rw [submit_answered_eq s req t qs hqq h1a h2a h3 h4]
          · have h4a : ∀ a ∈ s.answers, a.question_id ≠ req.question_id := by
              push_neg at h4
              exact h4
            by_cases h5 : req.selected = []
            · rw [submit_empty_eq s req t qs hqq h1a h2a h3 h4a h5]
            · by_cases h6 : ∃ i ∈ req.selected, i < 0 ∨
                  ((qs.getD s.current_index default).options.length : Int) ≤ i
              · rw [submit_oor_eq s req t qs hqq h1a h2a h3 h4a h5 h6]
              · have h6a : ∀ i ∈ req.selected, 0 ≤ i ∧
                    i < ((qs.getD s.current_index default).options.length : Int) := by
                  push_neg at h6
                  exact h6
                rw [submit_ok_eq s req t qs hqq h1a h2a h3 h4a h5 h6a] at h
                simp at h

/-- Claim C10: on an active session whose cursor is strictly below the question
count, next-question performs no mutation at all: the stored session record is
returned unchanged. -/
theorem next_question_active_no_mutation (s : Session) (t : Nat)
    (qs : List Question) (hq : get_quiz_questions s.quiz_id = some qs)
    (h1 : s.status = .active) (h2 : s.current_index < qs.length) :
    (next_question s t).1 = s := by
  rw [next_active_eq s t qs hq h1 h2]

/-- Claim C6: calling next-question repeatedly without submitting any answer in
between returns the same question and the same progress pair on every call, for any
number of repetitions. -/
theorem next_question_idempotent (s : Session) (ts : Nat → Nat)
    (qs : List Question) (hq : get_quiz_questions s.quiz_id = some qs)
    (n : Nat) :
    ∃ r0 rn, (next_question s (ts 0)).2 = Except.ok r0 ∧
      (next_question (iterNext s ts n) (ts n)).2 = Except.ok rn ∧
      rn.question = r0.question ∧ rn.progress = r0.progress := by
  by_cases hA : s.status = .active ∧ s.current_index < qs.length
  · have hstate : ∀ m, iterNext s ts m = s := by
      intro m
      induction m with
      | zero => rfl
      | succ k ih =>
        show (next_question (iterNext s ts k) (ts k)).1 = s
        rw [ih, next_active_eq s (ts k) qs hq hA.1 hA.2]
    exact ⟨_, _, by rw [next_active_eq s (ts 0) qs hq hA.1 hA.2],
           by rw [hstate n, next_active_eq s (ts n) qs hq hA.1 hA.2], rfl, rfl⟩
  · have hcond : s.status = .finished ∨ qs.length ≤ s.current_index := by
      rcases not_and_or.mp hA with hx | hx
      · left
        cases hy : s.status <;> simp_all
      · right
        exact not_lt.mp hx
    have hstep : ∀ (s' : Session), s'.quiz_id = s.quiz_id →
        s'.status = .finished → ∀ t2, next_question s' t2 =
          ({ s' with status := .finished, updated_at := t2 },
           Except.ok { session_id := s'.session_id
                     , question := none
                     , progress := { current := qs.length, total := qs.length }
                     , status := .finished }) := by
      intro s' hquiz hstatus t2
      exact next_finished_eq s' t2 qs (by rw [hquiz]; exact hq) (Or.inl hstatus)
    have hstate : ∀ m, iterNext s ts (m + 1) =
        { s with status := .finished, updated_at := ts m } := by
      intro m
      induction m with
      | zero =>
        show (next_question s (ts 0)).1 = _
        rw [next_finished_eq s (ts 0) qs hq hcond]
      | succ k ih =>
        show (next_question (iterNext s ts (k + 1)) (ts (k + 1))).1 = _
        rw [ih, hstep { s with status := .finished, updated_at := ts k }
              rfl rfl (ts (k + 1))]
    cases n with
    | zero =>
      exact ⟨_, _, by rw [next_finished_eq s (ts 0) qs hq hcond],
             by simp only [iterNext]; rw [next_finished_eq s (ts 0) qs hq hcond],
             rfl, rfl⟩
    | succ m =>
      have e1 := hstep { s with status := .finished, updated_at := ts m }
        rfl rfl (ts (m + 1))
      exact ⟨_, _, by rw [next_finished_eq s (ts 0) qs hq hcond],
             by rw [hstate m, e1], rfl, rfl⟩

/-- Claim C9: every question payload returned by next-question is exactly the
projection of the catalog question at the cursor to identifier, prompt, options and
multi-select flag (the QuestionOut shape); the correct-answer set and the
explanation are never included. -/
theorem next_question_payload_stripped (s : Session) (t : Nat)
    (qs : List Question) (hq : get_quiz_questions s.quiz_id = some qs)
    (r : NextQuestionResponse) (qo : QuestionOut)
    (h : (next_question s t).2 = Except.ok r) (hsome : r.question = some qo) :
    qo = stripQuestion (qs.getD s.current_index default) := by
  by_cases hA : s.status = .active ∧ s.current_index < qs.length
  · rw [next_active_eq s t qs hq hA.1 hA.2] at h
    simp only [Except.ok.injEq] at h
    rw [← h] at hsome
    simp only [Option.some.injEq] at hsome
    rw [← hsome]
    rfl
  · have hcond : s.status = .finished ∨ qs.length ≤ s.current_index := by
      rcases not_and_or.mp hA with hx | hx
      · left
        cases hy : s.status <;> simp_all
      · right
        exact not_lt.mp hx
    rw [next_finished_eq s t qs hq hcond] at h
    simp only [Except.ok.injEq] at h
    rw [← h] at hsome
    simp at hsome

/-- Claim C1 witness: the duplicated but correct selection [1, 1] for question q1
of a fresh session passes all preconditions and is judged correct. -/
theorem submit_correct_iff_selected_set_eq_witness :
    get_quiz_questions demoSession.quiz_id = some usHistory1 ∧
    demoSession.status = .active ∧
    demoSession.current_index < usHistory1.length ∧
    reqC1.question_id =
      (usHistory1.getD demoSession.current_index default).question_id ∧
    (∀ a ∈ demoSession.answers, a.question_id ≠ reqC1.question_id) ∧
    reqC1.selected ≠ [] ∧
    (∀ i ∈ reqC1.selected, 0 ≤ i ∧
      i < ((usHistory1.getD demoSession.current_index default).options.length : Int)) ∧
    (∃ r, (submit_answer demoSession reqC1 7).2 = Except.ok r ∧
      (r.correct = true ↔
        reqC1.selected.toFinset =
          (usHistory1.getD demoSession.current_index default).correct.toFinset)) :=
  ⟨by decide, by decide, by decide, by decide, by decide, by decide, by decide,
   submit_correct_iff_selected_set_eq demoSession reqC1 7 usHistory1
     (by decide) (by decide) (by decide) (by decide) (by decide) (by decide)
     (by decide)⟩

/-- Claim C2 witness: the invariant evaluated after a concrete operation
sequence. -/
theorem answers_length_and_score_invariant_witness :
    create_session "sess-1" "us_history_1" Mode.practice 0 = some demoSession ∧
    ((applyOps demoSession opsC2).answers.length =
        (applyOps demoSession opsC2).current_index ∧
      (applyOps demoSession opsC2).score =
        ((applyOps demoSession opsC2).answers.filter (fun a => a.correct)).length) :=
  ⟨by decide,
   answers_length_and_score_invariant "sess-1" "us_history_1" Mode.practice 0
     demoSession (by decide) opsC2⟩

/-- Claim C3 witness: the guard characterization evaluated on a fresh session and
a mismatching question identifier. -/
theorem submit_answer_guard_order_witness :
    get_quiz_questions demoSession.quiz_id = some usHistory1 ∧
    ((((submit_answer demoSession reqC3 5).2 = .error .alreadyFinished) ↔
        demoSession.status = .finished)
    ∧ (((submit_answer demoSession reqC3 5).2 = .error .noActiveQuestion) ↔
        demoSession.status = .active ∧
        usHistory1.length ≤ demoSession.current_index)
    ∧ (∀ e, ((submit_answer demoSession reqC3 5).2 =
          .error (.questionMismatch e)) ↔
        demoSession.status = .active ∧
        demoSession.current_index < usHistory1.length ∧
        reqC3.question_id ≠
          (usHistory1.getD demoSession.current_index default).question_id ∧
        e = (usHistory1.getD demoSession.current_index default).question_id)
    ∧ (((submit_answer demoSession reqC3 5).2 = .error .alreadyAnswered) ↔
        demoSession.status = .active ∧
        demoSession.current_index < usHistory1.length ∧
        reqC3.question_id =
          (usHistory1.getD demoSession.current_index default).question_id ∧
        (∃ a ∈ demoSession.answers, a.question_id = reqC3.question_id))
    ∧ (((submit_answer demoSession reqC3 5).2 = .error .emptySelection) ↔
        demoSession.status = .active ∧
        demoSession.current_index < usHistory1.length ∧
        reqC3.question_id =
          (usHistory1.getD demoSession.current_index default).question_id ∧
        ¬ (∃ a ∈ demoSession.answers, a.question_id = reqC3.question_id) ∧
        reqC3.selected = [])
    ∧ (((submit_answer demoSession reqC3 5).2 = .error .indexOutOfRange) ↔
        demoSession.status = .active ∧
        demoSession.current_index < usHistory1.length ∧
        reqC3.question_id =
          (usHistory1.getD demoSession.current_index default).question_id ∧
        ¬ (∃ a ∈ demoSession.answers, a.question_id = reqC3.question_id) ∧
        reqC3.selected ≠ [] ∧
        (∃ i ∈ reqC3.selected, i < 0 ∨
          ((usHistory1.getD demoSession.current_index default).options.length : Int) ≤ i))
    ∧ ((∃ r, (submit_answer demoSession reqC3 5).2 = Except.ok r) ↔
        demoSession.status = .active ∧
        demoSession.current_index < usHistory1.length ∧
        reqC3.question_id =
          (usHistory1.getD demoSession.current_index default).question_id ∧
        ¬ (∃ a ∈ demoSession.answers, a.question_id = reqC3.question_id) ∧
        reqC3.selected ≠ [] ∧
        (∀ i ∈ reqC3.selected, 0 ≤ i ∧
          i < ((usHistory1.getD demoSession.current_index default).options.length : Int)))) :=
  ⟨by decide, submit_answer_guard_order demoSession reqC3 5 usHistory1 (by decide)⟩

/-- Claim C4 witness: resubmitting q1 right after answering it on a fresh
session. -/
theorem resubmit_same_question_never_double_scores_witness :
    submit_answer demoSession { question_id := "q1", selected := [1] } 1 =
      (demoAfterQ1, Except.ok respQ1) ∧
    reqC4.question_id =
      ({ question_id := "q1", selected := [1] } : SubmitAnswerRequest).question_id ∧
    ((demoAfterQ1.status = .finished →
        submit_answer demoAfterQ1 reqC4 9 =
          (demoAfterQ1, .error .alreadyFinished)) ∧
     (demoAfterQ1.status = .active →
        (∃ e, (submit_answer demoAfterQ1 reqC4 9).2 =
            .error (.questionMismatch e)) ∨
        (submit_answer demoAfterQ1 reqC4 9).2 = .error .alreadyAnswered) ∧
     (submit_answer demoAfterQ1 reqC4 9).1.score = demoAfterQ1.score) :=
  ⟨by decide, by decide,
   resubmit_same_question_never_double_scores demoSession
     { question_id := "q1", selected := [1] } reqC4 1 9 demoAfterQ1 respQ1
     (by decide) (by decide)⟩

/-- Claim C5 witness: behaviour of a concrete finished session. -/
theorem finished_is_terminal_amended_witness :
    get_quiz_questions demoFinished.quiz_id = some usHistory1 ∧
    demoFinished.status = .finished ∧
    ((∀ req t2, submit_answer demoFinished req t2 =
        (demoFinished, .error .alreadyFinished)) ∧
     (finish_session demoFinished 7).1 = { demoFinished with updated_at := 7 } ∧
     (finish_session demoFinished 7).2 = Except.ok
       { session_id := demoFinished.session_id
       , status := .finished
       , score := demoFinished.score
       , total := usHistory1.length }) :=
  ⟨by decide, by decide,
   finished_is_terminal_amended demoFinished 7 usHistory1 (by decide) (by decide)⟩

/-- Claim C6 witness: three consecutive next-question calls on a fresh
session. -/
theorem next_question_idempotent_witness :
    get_quiz_questions demoSession.quiz_id = some usHistory1 ∧
    (∃ r0 rn, (next_question demoSession 10).2 = Except.ok r0 ∧
      (next_question (iterNext demoSession (fun k => k + 10) 2) 12).2 =
        Except.ok rn ∧
      rn.question = r0.question ∧ rn.progress = r0.progress) :=
  ⟨by decide,
   next_question_idempotent demoSession (fun k => k + 10) usHistory1 (by decide) 2⟩

/-- Claim C7 witness: an active session whose cursor equals the question
count. -/
theorem submit_at_exhausted_cursor_witness :
    get_quiz_questions exhaustedActive.quiz_id = some usHistory1 ∧
    exhaustedActive.status = .active ∧
    exhaustedActive.current_index = usHistory1.length ∧
    ((submit_answer exhaustedActive reqC4 5).2 = .error .noActiveQuestion ∧
     (submit_answer exhaustedActive reqC4 5).1.status = .finished) :=
  ⟨by decide, by decide, by decide,
   submit_at_exhausted_cursor exhaustedActive reqC4 5 usHistory1
     (by decide) (by decide) (by decide)⟩

/-- Claim C8 witness: submitting index 7 against the four-option question q1. -/
theorem index_out_of_range_preserves_state_witness :
    (submit_answer demoSession reqC8 2).2 = .error .indexOutOfRange ∧
    (submit_answer demoSession reqC8 2).1 = demoSession :=
  ⟨by decide, index_out_of_range_preserves_state demoSession reqC8 2 (by decide)⟩

/-- Claim C9 witness: the payload served for q1 on a fresh session. -/
theorem next_question_payload_stripped_witness :
    get_quiz_questions demoSession.quiz_id = some usHistory1 ∧
    (next_question demoSession 4).2 = Except.ok respNextQ1 ∧
    respNextQ1.question = some qoC9 ∧
    qoC9 = stripQuestion (usHistory1.getD demoSession.current_index default) :=
  ⟨by decide, by decide, by decide,
   next_question_payload_stripped demoSession 4 usHistory1 (by decide)
     respNextQ1 qoC9 (by decide) (by decide)⟩

/-- Claim C10 witness: next-question on a fresh session. -/
theorem next_question_active_no_mutation_witness :
    get_quiz_questions demoSession.quiz_id = some usHistory1 ∧
    demoSession.status = .active ∧
    demoSession.current_index < usHistory1.length ∧
    (next_question demoSession 4).1 = demoSession :=
  ⟨by decide, by decide, by decide,
   next_question_active_no_mutation demoSession 4 usHistory1
     (by decide) (by decide) (by decide)⟩

end Quiz
